import Mathlib

/-!
Verification of the brain-agriculture REST backend's validation and
consistency-checking layer: a shallow embedding of the five resource
services (Producer, Property, Season, CultureType, Crop), their guards
(document validation, area constraints, uniqueness checks, delete guards),
pagination, and the dashboard aggregator, with theorems settling the
spec's claims about them.

The persistence layer is modelled as in-memory lists of records; each
service operation is a pure function from the database state to either a
`ServiceError` (the thrown `NotFoundException` / `BadRequestException`)
or the new state plus the returned entity.  An `error` result means the
service threw before reaching the persistence write, so the stored data
is unchanged, exactly as in the source.
-/

/-- JS truthiness of an optional string (`undefined` and `""` are falsy). -/
def jsStrTruthy (x : Option String) : Bool :=
  match x with
  | some s => decide (s ≠ "")
  | none => false

/-- JS `x || y` for an optional string `x`: `y` when `x` is absent or empty. -/
def jsStrOr (x : Option String) (y : String) : String :=
  match x with
  | some s => if s = "" then y else s
  | none => y

/-- JS truthiness of an optional number (`undefined` and `0` are falsy). -/
def jsNatTruthy (x : Option Nat) : Bool :=
  match x with
  | some n => decide (n ≠ 0)
  | none => false

/-- JS `x || y` for an optional number `x`: `y` when `x` is absent or zero. -/
def jsNatOr (x : Option Nat) (y : Nat) : Nat :=
  match x with
  | some n => if n = 0 then y else n
  | none => y

/-- JS truthiness of an optional decimal (`undefined` and `0` are falsy). -/
def jsRatTruthy (x : Option Rat) : Bool :=
  match x with
  | some q => decide (q ≠ 0)
  | none => false

/-- The `DocumentType` enum of the Prisma schema. -/
inductive DocumentType where
  | CPF
  | CNPJ
deriving Repr, DecidableEq

/-- Producer row: unique tax document plus type tag and display name. -/
structure Producer where
  id : String
  document : String
  documentType : DocumentType
  name : String
deriving Repr, DecidableEq

/-- Property row; the three areas are decimals (hectares), modelled as rationals. -/
structure Property where
  id : String
  name : String
  city : String
  state : String
  totalArea : Rat
  arableArea : Rat
  vegetationArea : Rat
  producerId : String
deriving Repr, DecidableEq

/-- Season row: display name, integer year, owning property. -/
structure Season where
  id : String
  name : String
  year : Nat
  propertyId : String
deriving Repr, DecidableEq

/-- CultureType row: unique slug `name` plus display `title`. -/
structure CultureType where
  id : String
  name : String
  title : String
deriving Repr, DecidableEq

/-- Crop row: planting of one culture type in one season, optional planted area. -/
structure Crop where
  id : String
  seasonId : String
  cultureTypeId : String
  plantedArea : Option Rat
deriving Repr, DecidableEq

/-- The relational store: one table per entity. -/
structure DB where
  producers : List Producer
  properties : List Property
  seasons : List Season
  cultureTypes : List CultureType
  crops : List Crop
deriving Repr, DecidableEq

/-- The two error kinds thrown by the services
(`NotFoundException` / `BadRequestException`), with their messages. -/
inductive ServiceError where
  | notFound (message : String)
  | badRequest (message : String)
deriving Repr, DecidableEq

/-- `CreatePropertySchema` payload (all fields required). -/
structure CreatePropertyDto where
  name : String
  city : String
  state : String
  totalArea : Rat
  arableArea : Rat
  vegetationArea : Rat
  producerId : String
deriving Repr, DecidableEq

/-- `UpdatePropertySchema` payload (all fields optional). -/
structure UpdatePropertyDto where
  name : Option String := none
  city : Option String := none
  state : Option String := none
  totalArea : Option Rat := none
  arableArea : Option Rat := none
  vegetationArea : Option Rat := none
  producerId : Option String := none
deriving Repr, DecidableEq

namespace PropertyService

/-- `PropertyService.verifyProducerExists`: `findFirst` by id, else BadRequest. -/
def verifyProducerExists (db : DB) (producerId : String) : Except ServiceError Unit :=
  match db.producers.find? (fun p => p.id == producerId) with
  | some _ => .ok ()
  | none => .error (.badRequest "Producer not found")

/-- `PropertyService.validateAreaConstraints`: negative areas and
`arable + vegetation > total` are rejected. -/
def validateAreaConstraints (totalArea arableArea vegetationArea : Rat) :
    Except ServiceError Unit :=
  if arableArea < 0 ∨ vegetationArea < 0 ∨ totalArea < 0 then
    .error (.badRequest "Area values must be positive")
  else if arableArea + vegetationArea > totalArea then
    .error (.badRequest
      "The sum of arable area and vegetation area cannot exceed the total area")
  else
    .ok ()

/-- `PropertyService.findOne` (without the `include` projection, which the
claims do not touch): `findFirst` by id, else NotFound. -/
def findOne (db : DB) (id : String) : Except ServiceError Property :=
  match db.properties.find? (fun p => p.id == id) with
  | some p => .ok p
  | none => .error (.notFound "Property not found")

/-- `PropertyService.create`: verify the producer, validate the areas,
then write the new row.  `newId` stands for the id generated by the store. -/
def create (db : DB) (newId : String) (dto : CreatePropertyDto) :
    Except ServiceError (DB × Property) :=
  match verifyProducerExists db dto.producerId with
  | .error e => .error e
  | .ok _ =>
    match validateAreaConstraints dto.totalArea dto.arableArea dto.vegetationArea with
    | .error e => .error e
    | .ok _ =>
      let p : Property :=
        { id := newId, name := dto.name, city := dto.city, state := dto.state,
          totalArea := dto.totalArea, arableArea := dto.arableArea,
          vegetationArea := dto.vegetationArea, producerId := dto.producerId }
      .ok ({ db with properties := db.properties ++ [p] }, p)

/-- The merged row written by `PropertyService.update`: each supplied field
replaces the stored one (`?? existingProperty.x` for the areas, Prisma
skipping `undefined` fields for the rest). -/
def applyUpdate (existing : Property) (dto : UpdatePropertyDto) : Property :=
  { existing with
    name := dto.name.getD existing.name,
    city := dto.city.getD existing.city,
    state := dto.state.getD existing.state,
    producerId := dto.producerId.getD existing.producerId,
    totalArea := dto.totalArea.getD existing.totalArea,
    arableArea := dto.arableArea.getD existing.arableArea,
    vegetationArea := dto.vegetationArea.getD existing.vegetationArea }

/-- `PropertyService.update`: load the current row, verify a supplied
producer, validate the merged areas when any area field was supplied
(`totalArea !== undefined || ...`), then write the merged row. -/
def update (db : DB) (id : String) (dto : UpdatePropertyDto) :
    Except ServiceError (DB × Property) :=
  match findOne db id with
  | .error e => .error e
  | .ok existing =>
    match (if jsStrTruthy dto.producerId then
             verifyProducerExists db (dto.producerId.getD "")
           else .ok ()) with
    | .error e => .error e
    | .ok _ =>
      match (if dto.totalArea.isSome ∨ dto.arableArea.isSome ∨ dto.vegetationArea.isSome then
               validateAreaConstraints
                 (dto.totalArea.getD existing.totalArea)
                 (dto.arableArea.getD existing.arableArea)
                 (dto.vegetationArea.getD existing.vegetationArea)
             else .ok ()) with
      | .error e => .error e
      | .ok _ =>
        let merged := applyUpdate existing dto
        .ok ({ db with
                 properties := db.properties.map (fun q => if q.id == id then merged else q) },
             merged)

end PropertyService

/-- The spec's per-row area invariant: all three areas non-negative and
`arable + vegetation ≤ total`. -/
def Property.areaInv (p : Property) : Prop :=
  0 ≤ p.totalArea ∧ 0 ≤ p.arableArea ∧ 0 ≤ p.vegetationArea ∧
    p.arableArea + p.vegetationArea ≤ p.totalArea

instance (p : Property) : Decidable p.areaInv := by
  unfold Property.areaInv
  infer_instance

/-- The store-wide area invariant: every stored property satisfies `areaInv`. -/
def DB.areaInv (db : DB) : Prop :=
  ∀ p ∈ db.properties, p.areaInv

instance (db : DB) : Decidable db.areaInv :=
  List.decidableBAll _ db.properties

theorem validateAreaConstraints_ok {t a v : Rat} {u : Unit}
    (h : PropertyService.validateAreaConstraints t a v = .ok u) :
    0 ≤ t ∧ 0 ≤ a ∧ 0 ≤ v ∧ a + v ≤ t := by
  unfold PropertyService.validateAreaConstraints at h
  split at h
  · exact absurd h (by simp)
  · split at h
    · exact absurd h (by simp)
    · rename_i h1 h2
      push_neg at h1 h2
      exact ⟨h1.2.2, h1.1, h1.2.1, h2⟩

theorem validateAreaConstraints_violation {t a v : Rat}
    (h : ¬ (0 ≤ t ∧ 0 ≤ a ∧ 0 ≤ v ∧ a + v ≤ t)) :
    ∃ msg, PropertyService.validateAreaConstraints t a v = .error (.badRequest msg) := by
  unfold PropertyService.validateAreaConstraints
  split
  · exact ⟨_, rfl⟩
  · split
    · exact ⟨_, rfl⟩
    · rename_i h1 h2
      push_neg at h1 h2
      exact absurd ⟨h1.2.2, h1.1, h1.2.1, h2⟩ h

theorem verifyProducerExists_cases (db : DB) (pid : String) :
    PropertyService.verifyProducerExists db pid = .ok () ∨
      PropertyService.verifyProducerExists db pid = .error (.badRequest "Producer not found") := by
  unfold PropertyService.verifyProducerExists
  split <;> simp

theorem findOne_ok_mem {db : DB} {id : String} {p : Property}
    (h : PropertyService.findOne db id = .ok p) : p ∈ db.properties := by
  unfold PropertyService.findOne at h
  split at h
  · rename_i p0 hfind
    cases h
    exact List.mem_of_find?_eq_some hfind
  · cases h

/-- C1: after any successful property create or update every stored
property has non-negative areas with `arable + vegetation ≤ total`; a
create, or an update whose fully-merged areas (each unsupplied field
defaulting to the persisted value) violate the constraint, is rejected
with a bad-request error — and hence throws before the persistence
write, leaving the stored record unchanged. -/
theorem C1_property_area_invariant :
    (∀ (db : DB) (newId : String) (dto : CreatePropertyDto) (db' : DB) (p : Property),
      db.areaInv → PropertyService.create db newId dto = .ok (db', p) → db'.areaInv) ∧
    (∀ (db : DB) (id : String) (dto : UpdatePropertyDto) (db' : DB) (p : Property),
      db.areaInv → PropertyService.update db id dto = .ok (db', p) → db'.areaInv) ∧
    (∀ (db : DB) (newId : String) (dto : CreatePropertyDto),
      ¬ (0 ≤ dto.totalArea ∧ 0 ≤ dto.arableArea ∧ 0 ≤ dto.vegetationArea ∧
          dto.arableArea + dto.vegetationArea ≤ dto.totalArea) →
      ∃ msg, PropertyService.create db newId dto = .error (.badRequest msg)) ∧
    (∀ (db : DB) (id : String) (dto : UpdatePropertyDto) (existing : Property),
      PropertyService.findOne db id = .ok existing →
      existing.areaInv →
      ¬ (0 ≤ dto.totalArea.getD existing.totalArea ∧
          0 ≤ dto.arableArea.getD existing.arableArea ∧
          0 ≤ dto.vegetationArea.getD existing.vegetationArea ∧
          dto.arableArea.getD existing.arableArea + dto.vegetationArea.getD existing.vegetationArea
            ≤ dto.totalArea.getD existing.totalArea) →
      ∃ msg, PropertyService.update db id dto = .error (.badRequest msg)) := by
  refine ⟨?_, ?_, ?_, ?_⟩
  · intro db newId dto db' p hinv hok
    unfold PropertyService.create at hok
    cases hv : PropertyService.verifyProducerExists db dto.producerId with
    | error e => rw [hv] at hok; exact absurd hok (by simp)
    | ok u =>
      rw [hv] at hok
      simp only [] at hok
      cases hva : PropertyService.validateAreaConstraints dto.totalArea dto.arableArea
          dto.vegetationArea with
      | error e => rw [hva] at hok; exact absurd hok (by simp)
      | ok u2 =>
        rw [hva] at hok
        simp only [Except.ok.injEq, Prod.mk.injEq] at hok
        obtain ⟨h1, h2, h3, h4⟩ := validateAreaConstraints_ok hva
        obtain ⟨hdb, hp⟩ := hok
        subst hdb
        intro q hq
        rcases List.mem_append.mp hq with hq | hq
        · exact hinv q hq
        · rcases List.mem_singleton.mp hq with rfl
          exact ⟨h1, h2, h3, h4⟩
  · intro db id dto db' p hinv hok
    unfold PropertyService.update at hok
    cases hf : PropertyService.findOne db id with
    | error e => rw [hf] at hok; exact absurd hok (by simp)
    | ok existing =>
      rw [hf] at hok
      simp only [] at hok
      cases hv : (if jsStrTruthy dto.producerId then
          PropertyService.verifyProducerExists db (dto.producerId.getD "")
        else .ok ()) with
      | error e => rw [hv] at hok; exact absurd hok (by simp)
      | ok u =>
        rw [hv] at hok
        simp only [] at hok
        have hstep :
            ∀ u2 : Unit,
              (if dto.totalArea.isSome ∨ dto.arableArea.isSome ∨ dto.vegetationArea.isSome then
                PropertyService.validateAreaConstraints
                  (dto.totalArea.getD existing.totalArea)
                  (dto.arableArea.getD existing.arableArea)
                  (dto.vegetationArea.getD existing.vegetationArea)
              else .ok ()) = .ok u2 →
              (PropertyService.applyUpdate existing dto).areaInv := by
          intro u2 hva
          by_cases hc : dto.totalArea.isSome ∨ dto.arableArea.isSome ∨ dto.vegetationArea.isSome
          · rw [if_pos hc] at hva
            obtain ⟨h1, h2, h3, h4⟩ := validateAreaConstraints_ok hva
            exact ⟨h1, h2, h3, h4⟩
          · push_neg at hc
            obtain ⟨ht, ha, hveg⟩ := hc
            have ht' := Option.not_isSome_iff_eq_none.mp ht
            have ha' := Option.not_isSome_iff_eq_none.mp ha
            have hveg' := Option.not_isSome_iff_eq_none.mp hveg
            have hex := hinv existing (findOne_ok_mem hf)
            simp only [Property.areaInv, PropertyService.applyUpdate, ht', ha', hveg',
              Option.getD_none]
            exact hex
        cases hva : (if dto.totalArea.isSome ∨ dto.arableArea.isSome ∨ dto.vegetationArea.isSome then
            PropertyService.validateAreaConstraints
              (dto.totalArea.getD existing.totalArea)
              (dto.arableArea.getD existing.arableArea)
              (dto.vegetationArea.getD existing.vegetationArea)
          else .ok ()) with
        | error e => rw [hva] at hok; exact absurd hok (by simp)
        | ok u2 =>
          rw [hva] at hok
          simp only [Except.ok.injEq, Prod.mk.injEq] at hok
          obtain ⟨hdb, hp⟩ := hok
          subst hdb
          intro q hq
          rcases List.mem_map.mp hq with ⟨orig, horig, rfl⟩
          by_cases heq : orig.id == id
          · rw [if_pos heq]
            exact hstep u2 hva
          · rw [if_neg heq]
            exact hinv orig horig
  · intro db newId dto hviol
    unfold PropertyService.create
    rcases verifyProducerExists_cases db dto.producerId with hv | hv
    · rw [hv]
      simp only []
      obtain ⟨msg, hmsg⟩ := validateAreaConstraints_violation hviol
      rw [hmsg]
      exact ⟨msg, rfl⟩
    · rw [hv]
      exact ⟨"Producer not found", rfl⟩
  · intro db id dto existing hf hex hviol
    unfold PropertyService.update
    rw [hf]
    simp only []
    have hc : dto.totalArea.isSome ∨ dto.arableArea.isSome ∨ dto.vegetationArea.isSome := by
      by_contra hcn
      push_neg at hcn
      obtain ⟨ht, ha, hveg⟩ := hcn
      have ht' := Option.not_isSome_iff_eq_none.mp ht
      have ha' := Option.not_isSome_iff_eq_none.mp ha
      have hveg' := Option.not_isSome_iff_eq_none.mp hveg
      rw [ht', ha', hveg'] at hviol
      simp only [Option.getD_none] at hviol
      exact hviol hex
    by_cases hp : jsStrTruthy dto.producerId
    · rw [if_pos hp]
      rcases verifyProducerExists_cases db (dto.producerId.getD "") with hv | hv
      · rw [hv]
        simp only []
        rw [if_pos hc]
        obtain ⟨msg, hmsg⟩ := validateAreaConstraints_violation hviol
        rw [hmsg]
        exact ⟨msg, rfl⟩
      · rw [hv]
        exact ⟨"Producer not found", rfl⟩
    · rw [if_neg hp]
      simp only []
      rw [if_pos hc]
      obtain ⟨msg, hmsg⟩ := validateAreaConstraints_violation hviol
      rw [hmsg]
      exact ⟨msg, rfl⟩

/-- Example row fixtures used to instantiate the theorems on concrete data. -/
def exProducer : Producer :=
  { id := "prod-1", document := "11144477735", documentType := .CPF, name := "Ann Grower" }

def exProducer2 : Producer :=
  { id := "prod-2", document := "52998224725", documentType := .CPF, name := "Bo Planter" }

def exProperty : Property :=
  { id := "prop-1", name := "Farm One", city := "Town", state := "SP",
    totalArea := 10, arableArea := 6, vegetationArea := 3, producerId := "prod-1" }

def exSeason : Season :=
  { id := "seas-1", name := "Safra", year := 2024, propertyId := "prop-1" }

def exCultureType : CultureType :=
  { id := "cult-1", name := "soja", title := "Soja" }

def exCultureType2 : CultureType :=
  { id := "cult-2", name := "milho", title := "Milho" }

def exCrop : Crop :=
  { id := "crop-1", seasonId := "seas-1", cultureTypeId := "cult-1", plantedArea := some 2 }

def exDB : DB :=
  { producers := [exProducer, exProducer2], properties := [exProperty],
    seasons := [exSeason], cultureTypes := [exCultureType, exCultureType2],
    crops := [exCrop] }

theorem C1_property_area_invariant_witness :
    ∃ msg, PropertyService.update exDB "prop-1" { arableArea := some 20 } =
      .error (.badRequest msg) :=
  C1_property_area_invariant.2.2.2 exDB "prop-1" { arableArea := some 20 } exProperty
    (by rfl) (by norm_num [exProperty, Property.areaInv])
    (by norm_num [exProperty])

/-- The `...(excludeId ? { id: { not: excludeId } } : {})` clause shared by the
uniqueness guards: when an id to exclude is given, the row must have a
different id; otherwise every row qualifies. -/
def excludeOk (excludeId : Option String) (id : String) : Bool :=
  match excludeId with
  | some e => id != e
  | none => true

theorem excludeOk_none (id : String) : excludeOk none id = true := rfl

theorem excludeOk_some (e id : String) : excludeOk (some e) id = (id != e) := rfl

/-- `CreateSeasonSchema` payload. -/
structure CreateSeasonDto where
  name : String
  year : Nat
  propertyId : String
deriving Repr, DecidableEq

/-- `UpdateSeasonSchema` payload (all fields optional). -/
structure UpdateSeasonDto where
  name : Option String := none
  year : Option Nat := none
  propertyId : Option String := none
deriving Repr, DecidableEq

/-- The `where` clause of `SeasonService.verifySeasonUniqueness`:
same property, name and year, and not the excluded row itself. -/
def seasonTupleMatches (propertyId name : String) (year : Nat) (excludeId : Option String)
    (s : Season) : Bool :=
  s.propertyId == propertyId && s.name == name && s.year == year && excludeOk excludeId s.id

namespace SeasonService

/-- `SeasonService.verifyPropertyExists`: `findFirst` by id, else BadRequest. -/
def verifyPropertyExists (db : DB) (propertyId : String) : Except ServiceError Unit :=
  match db.properties.find? (fun p => p.id == propertyId) with
  | some _ => .ok ()
  | none => .error (.badRequest "Property not found")

/-- `SeasonService.verifySeasonUniqueness`: `findFirst` on the
(propertyId, name, year) tuple, excluding `excludeId`; a hit is a conflict. -/
def verifySeasonUniqueness (db : DB) (propertyId name : String) (year : Nat)
    (excludeId : Option String) : Except ServiceError Unit :=
  match db.seasons.find? (seasonTupleMatches propertyId name year excludeId) with
  | some _ => .error (.badRequest
      "Season with this name and year already exists for this property")
  | none => .ok ()

/-- `SeasonService.create`: verify the property, verify tuple uniqueness,
then write the new row. -/
def create (db : DB) (newId : String) (dto : CreateSeasonDto) :
    Except ServiceError (DB × Season) :=
  match verifyPropertyExists db dto.propertyId with
  | .error e => .error e
  | .ok _ =>
    match verifySeasonUniqueness db dto.propertyId dto.name dto.year none with
    | .error e => .error e
    | .ok _ =>
      let s : Season :=
        { id := newId, name := dto.name, year := dto.year, propertyId := dto.propertyId }
      .ok ({ db with seasons := db.seasons ++ [s] }, s)

/-- `SeasonService.findOne` (without the `include` projection): `findFirst`
by id, else NotFound. -/
def findOne (db : DB) (id : String) : Except ServiceError Season :=
  match db.seasons.find? (fun s => s.id == id) with
  | some s => .ok s
  | none => .error (.notFound "Season not found")

/-- The row written by `SeasonService.update` (`data: updateSeasonDto`,
Prisma skipping absent fields). -/
def applyUpdate (current : Season) (dto : UpdateSeasonDto) : Season :=
  { current with
    name := dto.name.getD current.name,
    year := dto.year.getD current.year,
    propertyId := dto.propertyId.getD current.propertyId }

/-- `SeasonService.update`: load the row; if a (truthy) `propertyId` is
supplied verify it; if `name || year || propertyId` re-verify uniqueness on
the merged tuple (`x || currentSeason.x`), excluding the row's own id;
then write the patch. -/
def update (db : DB) (id : String) (dto : UpdateSeasonDto) :
    Except ServiceError (DB × Season) :=
  match findOne db id with
  | .error e => .error e
  | .ok current =>
    match (if jsStrTruthy dto.propertyId then
             verifyPropertyExists db (dto.propertyId.getD "")
           else .ok ()) with
    | .error e => .error e
    | .ok _ =>
      match (if jsStrTruthy dto.name ∨ jsNatTruthy dto.year ∨ jsStrTruthy dto.propertyId then
               verifySeasonUniqueness db
                 (jsStrOr dto.propertyId current.propertyId)
                 (jsStrOr dto.name current.name)
                 (jsNatOr dto.year current.year)
                 (some id)
             else .ok ()) with
      | .error e => .error e
      | .ok _ =>
        let merged := applyUpdate current dto
        .ok ({ db with seasons := db.seasons.map (fun s => if s.id == id then merged else s) },
             merged)

end SeasonService

theorem seasonTupleMatches_iff (propertyId name : String) (year : Nat)
    (excludeId : Option String) (s : Season) :
    seasonTupleMatches propertyId name year excludeId s = true ↔
      s.propertyId = propertyId ∧ s.name = name ∧ s.year = year ∧
        excludeOk excludeId s.id = true := by
  unfold seasonTupleMatches
  simp [Bool.and_assoc]

theorem verifySeasonUniqueness_ok_iff (db : DB) (propertyId name : String) (year : Nat)
    (excludeId : Option String) :
    SeasonService.verifySeasonUniqueness db propertyId name year excludeId = .ok () ↔
      ∀ s ∈ db.seasons, ¬ (seasonTupleMatches propertyId name year excludeId s = true) := by
  unfold SeasonService.verifySeasonUniqueness
  cases hfind : db.seasons.find? (seasonTupleMatches propertyId name year excludeId) with
  | none =>
    simp only []
    constructor
    · intro _
      exact fun s hs => by
        have := List.find?_eq_none.mp hfind s hs
        simpa using this
    · intro _
      trivial
  | some s =>
    simp only []
    constructor
    · intro h
      cases h
    · intro h
      exact absurd (List.find?_some hfind)
        (h s (List.mem_of_find?_eq_some hfind))

theorem verifySeasonUniqueness_cases (db : DB) (propertyId name : String) (year : Nat)
    (excludeId : Option String) :
    SeasonService.verifySeasonUniqueness db propertyId name year excludeId = .ok () ∨
      SeasonService.verifySeasonUniqueness db propertyId name year excludeId =
        .error (.badRequest
          "Season with this name and year already exists for this property") := by
  unfold SeasonService.verifySeasonUniqueness
  cases hfind : db.seasons.find? (seasonTupleMatches propertyId name year excludeId) <;> simp

theorem verifyPropertyExists_season_cases (db : DB) (pid : String) :
    SeasonService.verifyPropertyExists db pid = .ok () ∨
      SeasonService.verifyPropertyExists db pid = .error (.badRequest "Property not found") := by
  unfold SeasonService.verifyPropertyExists
  split <;> simp

/-- C2: the (propertyId, name, year) season tuple is kept unique: a create
whose tuple matches an existing season is rejected with the conflict
(bad-request) error while a create whose tuple differs from every stored
season succeeds; on update the tuple is re-validated whenever any of
name, year or propertyId is supplied, recomputed from the merged old and
new values and excluding the record's own id. -/
theorem C2_season_tuple_unique :
    (∀ (db : DB) (newId : String) (dto : CreateSeasonDto),
      SeasonService.verifyPropertyExists db dto.propertyId = .ok () →
      (∃ s ∈ db.seasons,
        s.propertyId = dto.propertyId ∧ s.name = dto.name ∧ s.year = dto.year) →
      SeasonService.create db newId dto =
        .error (.badRequest
          "Season with this name and year already exists for this property")) ∧
    (∀ (db : DB) (newId : String) (dto : CreateSeasonDto),
      SeasonService.verifyPropertyExists db dto.propertyId = .ok () →
      (∀ s ∈ db.seasons,
        ¬ (s.propertyId = dto.propertyId ∧ s.name = dto.name ∧ s.year = dto.year)) →
      ∃ db' s', SeasonService.create db newId dto = .ok (db', s')) ∧
    (∀ (db : DB) (id : String) (dto : UpdateSeasonDto) (current : Season),
      SeasonService.findOne db id = .ok current →
      (jsStrTruthy dto.propertyId = true →
        SeasonService.verifyPropertyExists db (dto.propertyId.getD "") = .ok ()) →
      (jsStrTruthy dto.name = true ∨ jsNatTruthy dto.year = true ∨
        jsStrTruthy dto.propertyId = true) →
      (∃ s ∈ db.seasons, s.id ≠ id ∧
        s.propertyId = jsStrOr dto.propertyId current.propertyId ∧
        s.name = jsStrOr dto.name current.name ∧
        s.year = jsNatOr dto.year current.year) →
      SeasonService.update db id dto =
        .error (.badRequest
          "Season with this name and year already exists for this property")) ∧
    (∀ (db : DB) (id : String) (dto : UpdateSeasonDto) (current : Season),
      SeasonService.findOne db id = .ok current →
      (jsStrTruthy dto.propertyId = true →
        SeasonService.verifyPropertyExists db (dto.propertyId.getD "") = .ok ()) →
      (∀ s ∈ db.seasons, s.id ≠ id →
        ¬ (s.propertyId = jsStrOr dto.propertyId current.propertyId ∧
          s.name = jsStrOr dto.name current.name ∧
          s.year = jsNatOr dto.year current.year)) →
      ∃ db' s', SeasonService.update db id dto = .ok (db', s')) := by
  refine ⟨?_, ?_, ?_, ?_⟩
  · intro db newId dto hprop hconf
    unfold SeasonService.create
    rw [hprop]
    simp only []
    rcases verifySeasonUniqueness_cases db dto.propertyId dto.name dto.year none with hu | hu
    · obtain ⟨s, hs, h1, h2, h3⟩ := hconf
      have := (verifySeasonUniqueness_ok_iff db dto.propertyId dto.name dto.year none).mp hu s hs
      exact absurd ((seasonTupleMatches_iff _ _ _ _ s).mpr ⟨h1, h2, h3, excludeOk_none s.id⟩) this
    · rw [hu]
  · intro db newId dto hprop hnoconf
    unfold SeasonService.create
    rw [hprop]
    simp only []
    have hu : SeasonService.verifySeasonUniqueness db dto.propertyId dto.name dto.year none =
        .ok () := by
      rw [verifySeasonUniqueness_ok_iff]
      intro s hs hmatch
      obtain ⟨h1, h2, h3, _⟩ := (seasonTupleMatches_iff _ _ _ _ s).mp hmatch
      exact hnoconf s hs ⟨h1, h2, h3⟩
    rw [hu]
    exact ⟨_, _, rfl⟩
  · intro db id dto current hfind hprop hsupplied hconf
    unfold SeasonService.update
    rw [hfind]
    simp only []
    have hpv : (if jsStrTruthy dto.propertyId then
        SeasonService.verifyPropertyExists db (dto.propertyId.getD "")
      else .ok ()) = .ok () := by
      by_cases hp : jsStrTruthy dto.propertyId
      · rw [if_pos hp]; exact hprop hp
      · rw [if_neg hp]
    rw [hpv]
    simp only []
    rw [if_pos hsupplied]
    rcases verifySeasonUniqueness_cases db (jsStrOr dto.propertyId current.propertyId)
        (jsStrOr dto.name current.name) (jsNatOr dto.year current.year) (some id) with hu | hu
    · obtain ⟨s, hs, hne, h1, h2, h3⟩ := hconf
      have := (verifySeasonUniqueness_ok_iff _ _ _ _ _).mp hu s hs
      exact absurd ((seasonTupleMatches_iff _ _ _ _ s).mpr
        ⟨h1, h2, h3, by rw [excludeOk_some]; exact bne_iff_ne.mpr hne⟩) this
    · rw [hu]
  · intro db id dto current hfind hprop hnoconf
    unfold SeasonService.update
    rw [hfind]
    simp only []
    have hpv : (if jsStrTruthy dto.propertyId then
        SeasonService.verifyPropertyExists db (dto.propertyId.getD "")
      else .ok ()) = .ok () := by
      by_cases hp : jsStrTruthy dto.propertyId
      · rw [if_pos hp]; exact hprop hp
      · rw [if_neg hp]
    rw [hpv]
    simp only []
    have hu : SeasonService.verifySeasonUniqueness db
        (jsStrOr dto.propertyId current.propertyId) (jsStrOr dto.name current.name)
        (jsNatOr dto.year current.year) (some id) = .ok () := by
      rw [verifySeasonUniqueness_ok_iff]
      intro s hs hmatch
      obtain ⟨h1, h2, h3, hex⟩ := (seasonTupleMatches_iff _ _ _ _ s).mp hmatch
      rw [excludeOk_some] at hex
      exact hnoconf s hs (bne_iff_ne.mp hex) ⟨h1, h2, h3⟩
    by_cases hc : jsStrTruthy dto.name = true ∨ jsNatTruthy dto.year = true ∨
        jsStrTruthy dto.propertyId = true
    · rw [if_pos hc, hu]
      exact ⟨_, _, rfl⟩
    · rw [if_neg hc]
      exact ⟨_, _, rfl⟩

theorem C2_season_tuple_unique_witness :
    SeasonService.create exDB "seas-2" { name := "Safra", year := 2024, propertyId := "prop-1" } =
      .error (.badRequest
        "Season with this name and year already exists for this property") :=
  C2_season_tuple_unique.1 exDB "seas-2"
    { name := "Safra", year := 2024, propertyId := "prop-1" }
    (by rfl)
    ⟨exSeason, List.mem_singleton.mpr rfl, rfl, rfl, rfl⟩

/-- The `_count.crops` reverse-reference count included by
`CultureTypeService.findOne`: how many crops use this culture type. -/
def cropsCountFor (db : DB) (cultureTypeId : String) : Nat :=
  (db.crops.filter (fun c => c.cultureTypeId == cultureTypeId)).length

namespace CultureTypeService

/-- `CultureTypeService.findOne`: `findFirst` by id, else NotFound. -/
def findOne (db : DB) (id : String) : Except ServiceError CultureType :=
  match db.cultureTypes.find? (fun ct => ct.id == id) with
  | some ct => .ok ct
  | none => .error (.notFound "Culture type not found")

/-- `CultureTypeService.remove`: load the row, refuse deletion when its
`_count.crops` is positive, otherwise delete it. -/
def remove (db : DB) (id : String) : Except ServiceError (DB × CultureType) :=
  match findOne db id with
  | .error e => .error e
  | .ok ct =>
    if cropsCountFor db id > 0 then
      .error (.badRequest "Cannot delete culture type that is being used in crops")
    else
      .ok ({ db with cultureTypes := db.cultureTypes.filter (fun c => c.id != id) }, ct)

end CultureTypeService

/-- C3: deleting a culture type referenced by at least one crop fails with
a bad-request error (throwing before the delete, so the row is unchanged);
deleting one referenced by zero crops succeeds and a subsequent `getById`
for that id signals not-found. -/
theorem C3_culture_type_delete_guard :
    (∀ (db : DB) (id : String) (ct : CultureType),
      CultureTypeService.findOne db id = .ok ct →
      1 ≤ cropsCountFor db id →
      CultureTypeService.remove db id =
        .error (.badRequest "Cannot delete culture type that is being used in crops")) ∧
    (∀ (db : DB) (id : String) (ct : CultureType),
      CultureTypeService.findOne db id = .ok ct →
      cropsCountFor db id = 0 →
      ∃ db', CultureTypeService.remove db id = .ok (db', ct) ∧
        CultureTypeService.findOne db' id = .error (.notFound "Culture type not found")) := by
  constructor
  · intro db id ct hfind hcnt
    unfold CultureTypeService.remove
    rw [hfind]
    simp only []
    rw [if_pos (Nat.lt_of_lt_of_le Nat.zero_lt_one hcnt)]
  · intro db id ct hfind hcnt
    unfold CultureTypeService.remove
    rw [hfind]
    simp only []
    rw [if_neg (by omega)]
    refine ⟨_, rfl, ?_⟩
    unfold CultureTypeService.findOne
    have hnone :
        (db.cultureTypes.filter (fun c => c.id != id)).find? (fun ct => ct.id == id) = none := by
      apply List.find?_eq_none.mpr
      intro c hc
      simp only [List.mem_filter] at hc
      simp only [beq_iff_eq]
      exact bne_iff_ne.mp hc.2
    simp only [hnone]

theorem C3_culture_type_delete_guard_witness :
    CultureTypeService.remove exDB "cult-1" =
      .error (.badRequest "Cannot delete culture type that is being used in crops") :=
  C3_culture_type_delete_guard.1 exDB "cult-1" exCultureType (by rfl)
    (by rw [show cropsCountFor exDB "cult-1" = 1 from rfl])

/-- The `where` clause of `CropService.verifyUniqueCropCombination`:
same season and culture type, and not the excluded row itself. -/
def cropComboMatches (seasonId cultureTypeId : String) (excludeId : Option String)
    (c : Crop) : Bool :=
  c.seasonId == seasonId && c.cultureTypeId == cultureTypeId && excludeOk excludeId c.id

/-- `CreateCropSchema` payload. -/
structure CreateCropDto where
  seasonId : String
  cultureTypeId : String
  plantedArea : Option Rat := none
deriving Repr, DecidableEq

/-- `UpdateCropSchema` payload (all fields optional). -/
structure UpdateCropDto where
  seasonId : Option String := none
  cultureTypeId : Option String := none
  plantedArea : Option Rat := none
deriving Repr, DecidableEq

namespace CropService

/-- `CropService.verifySeasonExists`: `findFirst` by id, else BadRequest. -/
def verifySeasonExists (db : DB) (seasonId : String) : Except ServiceError Unit :=
  match db.seasons.find? (fun s => s.id == seasonId) with
  | some _ => .ok ()
  | none => .error (.badRequest "Season not found")

/-- `CropService.verifyCultureTypeExists`: `findFirst` by id, else BadRequest. -/
def verifyCultureTypeExists (db : DB) (cultureTypeId : String) : Except ServiceError Unit :=
  match db.cultureTypes.find? (fun ct => ct.id == cultureTypeId) with
  | some _ => .ok ()
  | none => .error (.badRequest "Culture type not found")

/-- `CropService.verifyUniqueCropCombination`: `findFirst` on the
(seasonId, cultureTypeId) pair, excluding `excludeId`; a hit is a conflict. -/
def verifyUniqueCropCombination (db : DB) (seasonId cultureTypeId : String)
    (excludeId : Option String) : Except ServiceError Unit :=
  match db.crops.find? (cropComboMatches seasonId cultureTypeId excludeId) with
  | some _ => .error (.badRequest
      "A crop with this season and culture type combination already exists")
  | none => .ok ()

/-- `CropService.create`: verify the season and the culture type exist,
verify pair uniqueness, then write the new row. -/
def create (db : DB) (newId : String) (dto : CreateCropDto) :
    Except ServiceError (DB × Crop) :=
  match verifySeasonExists db dto.seasonId with
  | .error e => .error e
  | .ok _ =>
    match verifyCultureTypeExists db dto.cultureTypeId with
    | .error e => .error e
    | .ok _ =>
      match verifyUniqueCropCombination db dto.seasonId dto.cultureTypeId none with
      | .error e => .error e
      | .ok _ =>
        let c : Crop :=
          { id := newId, seasonId := dto.seasonId, cultureTypeId := dto.cultureTypeId,
            plantedArea := dto.plantedArea }
        .ok ({ db with crops := db.crops ++ [c] }, c)

/-- `CropService.findOne` (without the `include` projection): `findFirst`
by id, else NotFound. -/
def findOne (db : DB) (id : String) : Except ServiceError Crop :=
  match db.crops.find? (fun c => c.id == id) with
  | some c => .ok c
  | none => .error (.notFound "Crop not found")

/-- The row written by `CropService.update` (`data: updateCropDto`,
Prisma skipping absent fields). -/
def applyUpdate (current : Crop) (dto : UpdateCropDto) : Crop :=
  { current with
    seasonId := dto.seasonId.getD current.seasonId,
    cultureTypeId := dto.cultureTypeId.getD current.cultureTypeId,
    plantedArea :=
      match dto.plantedArea with
      | some a => some a
      | none => current.plantedArea }

/-- `CropService.update`: load the row; verify a supplied (truthy)
`seasonId` / `cultureTypeId`; re-run the pair-uniqueness guard only when
BOTH foreign keys are supplied (`if (seasonId && cultureTypeId)`); then
write the patch. -/
def update (db : DB) (id : String) (dto : UpdateCropDto) :
    Except ServiceError (DB × Crop) :=
  match findOne db id with
  | .error e => .error e
  | .ok current =>
    match (if jsStrTruthy dto.seasonId then
             verifySeasonExists db (dto.seasonId.getD "")
           else .ok ()) with
    | .error e => .error e
    | .ok _ =>
      match (if jsStrTruthy dto.cultureTypeId then
               verifyCultureTypeExists db (dto.cultureTypeId.getD "")
             else .ok ()) with
      | .error e => .error e
      | .ok _ =>
        match (if jsStrTruthy dto.seasonId && jsStrTruthy dto.cultureTypeId then
                 verifyUniqueCropCombination db (dto.seasonId.getD "")
                   (dto.cultureTypeId.getD "") (some id)
               else .ok ()) with
        | .error e => .error e
        | .ok _ =>
          let merged := applyUpdate current dto
          .ok ({ db with crops := db.crops.map (fun c => if c.id == id then merged else c) },
               merged)

end CropService

theorem cropComboMatches_iff (seasonId cultureTypeId : String) (excludeId : Option String)
    (c : Crop) :
    cropComboMatches seasonId cultureTypeId excludeId c = true ↔
      c.seasonId = seasonId ∧ c.cultureTypeId = cultureTypeId ∧
        excludeOk excludeId c.id = true := by
  unfold cropComboMatches
  simp [Bool.and_assoc]

theorem verifyUniqueCropCombination_ok_iff (db : DB) (seasonId cultureTypeId : String)
    (excludeId : Option String) :
    CropService.verifyUniqueCropCombination db seasonId cultureTypeId excludeId = .ok () ↔
      ∀ c ∈ db.crops, ¬ (cropComboMatches seasonId cultureTypeId excludeId c = true) := by
  unfold CropService.verifyUniqueCropCombination
  cases hfind : db.crops.find? (cropComboMatches seasonId cultureTypeId excludeId) with
  | none =>
    simp only []
    constructor
    · intro _
      exact fun c hc => by
        have := List.find?_eq_none.mp hfind c hc
        simpa using this
    · intro _
      trivial
  | some c =>
    simp only []
    constructor
    · intro h
      cases h
    · intro h
      exact absurd (List.find?_some hfind)
        (h c (List.mem_of_find?_eq_some hfind))

theorem verifyUniqueCropCombination_cases (db : DB) (seasonId cultureTypeId : String)
    (excludeId : Option String) :
    CropService.verifyUniqueCropCombination db seasonId cultureTypeId excludeId = .ok () ∨
      CropService.verifyUniqueCropCombination db seasonId cultureTypeId excludeId =
        .error (.badRequest
          "A crop with this season and culture type combination already exists") := by
  unfold CropService.verifyUniqueCropCombination
  cases hfind : db.crops.find? (cropComboMatches seasonId cultureTypeId excludeId) <;> simp

/-- C4: on crop update the (seasonId, cultureTypeId) uniqueness guard
(excluding the record's own id) is re-run exactly when BOTH foreign keys
are supplied in the payload; an update supplying only one of the two (or
neither) skips the duplicate-pair check entirely and proceeds to the
write, even when the merged row duplicates an existing pair. -/
theorem C4_crop_update_uniqueness_guard :
    (∀ (db : DB) (id : String) (dto : UpdateCropDto) (current : Crop),
      CropService.findOne db id = .ok current →
      jsStrTruthy dto.seasonId = true →
      jsStrTruthy dto.cultureTypeId = true →
      CropService.verifySeasonExists db (dto.seasonId.getD "") = .ok () →
      CropService.verifyCultureTypeExists db (dto.cultureTypeId.getD "") = .ok () →
      (∃ c ∈ db.crops, c.id ≠ id ∧ c.seasonId = dto.seasonId.getD "" ∧
        c.cultureTypeId = dto.cultureTypeId.getD "") →
      CropService.update db id dto =
        .error (.badRequest
          "A crop with this season and culture type combination already exists")) ∧
    (∀ (db : DB) (id : String) (dto : UpdateCropDto) (current : Crop),
      CropService.findOne db id = .ok current →
      ¬ (jsStrTruthy dto.seasonId = true ∧ jsStrTruthy dto.cultureTypeId = true) →
      (jsStrTruthy dto.seasonId = true →
        CropService.verifySeasonExists db (dto.seasonId.getD "") = .ok ()) →
      (jsStrTruthy dto.cultureTypeId = true →
        CropService.verifyCultureTypeExists db (dto.cultureTypeId.getD "") = .ok ()) →
      ∃ db', CropService.update db id dto = .ok (db', CropService.applyUpdate current dto)) := by
  constructor
  · intro db id dto current hfind hs hc hse hcte hconf
    unfold CropService.update
    rw [hfind]
    simp only []
    rw [if_pos hs, hse]
    simp only []
    rw [if_pos hc, hcte]
    simp only []
    rw [if_pos (show (jsStrTruthy dto.seasonId && jsStrTruthy dto.cultureTypeId) = true by
      rw [hs, hc]; rfl)]
    rcases verifyUniqueCropCombination_cases db (dto.seasonId.getD "")
        (dto.cultureTypeId.getD "") (some id) with hu | hu
    · obtain ⟨c, hcmem, hne, h1, h2⟩ := hconf
      have := (verifyUniqueCropCombination_ok_iff _ _ _ _).mp hu c hcmem
      exact absurd ((cropComboMatches_iff _ _ _ c).mpr
        ⟨h1, h2, by rw [excludeOk_some]; exact bne_iff_ne.mpr hne⟩) this
    · rw [hu]
  · intro db id dto current hfind hnotboth hse hcte
    unfold CropService.update
    rw [hfind]
    simp only []
    have hsv : (if jsStrTruthy dto.seasonId then
        CropService.verifySeasonExists db (dto.seasonId.getD "")
      else .ok ()) = .ok () := by
      by_cases hp : jsStrTruthy dto.seasonId
      · rw [if_pos hp]; exact hse hp
      · rw [if_neg hp]
    have hcv : (if jsStrTruthy dto.cultureTypeId then
        CropService.verifyCultureTypeExists db (dto.cultureTypeId.getD "")
      else .ok ()) = .ok () := by
      by_cases hp : jsStrTruthy dto.cultureTypeId
      · rw [if_pos hp]; exact hcte hp
      · rw [if_neg hp]
    rw [hsv]
    simp only []
    rw [hcv]
    simp only []
    have hboth : (jsStrTruthy dto.seasonId && jsStrTruthy dto.cultureTypeId) ≠ true := by
      simpa [Bool.and_eq_true] using hnotboth
    rw [if_neg hboth]
    simp only []
    exact ⟨_, rfl⟩

def exCrop2 : Crop :=
  { id := "crop-2", seasonId := "seas-1", cultureTypeId := "cult-2", plantedArea := none }

/-- `exDB` with a second crop, used to exhibit the skipped duplicate check. -/
def exDB2 : DB :=
  { exDB with crops := [exCrop, exCrop2] }

theorem C4_crop_update_uniqueness_guard_witness :
    ∃ db', CropService.update exDB2 "crop-2" { cultureTypeId := some "cult-1" } =
      .ok (db', CropService.applyUpdate exCrop2 { cultureTypeId := some "cult-1" }) :=
  C4_crop_update_uniqueness_guard.2 exDB2 "crop-2" { cultureTypeId := some "cult-1" } exCrop2
    (by rfl)
    (by intro h; exact absurd h.1 (by simp [jsStrTruthy]))
    (by intro h; exact absurd h (by simp [jsStrTruthy]))
    (fun _ => by rfl)

/-- Sum of digits times weights, pairwise (stops at the shorter list). -/
def weightedSum : List Nat → List Nat → Nat
  | d :: ds, w :: ws => d * w + weightedSum ds ws
  | _, _ => 0

/-- One weighted-modulus-11 check digit: remainder < 2 maps to 0,
otherwise to 11 minus the remainder. -/
def checkDigit11 (ds ws : List Nat) : Nat :=
  let r := weightedSum ds ws % 11
  if r < 2 then 0 else 11 - r

/-- Whether every character of the list equals the first one. -/
def allRepeated (cs : List Char) : Bool :=
  match cs with
  | [] => true
  | c :: rest => rest.all (fun x => x == c)

/-- Digit values of a character list (0 for chars below the digit range;
validity separately requires every char to be a digit). -/
def digitsOf (cs : List Char) : List Nat :=
  cs.map (fun c => c.toNat - 48)

/-- CPF weights for the first check digit (positions 0..8). -/
def cpfFirstWeights : List Nat := [10, 9, 8, 7, 6, 5, 4, 3, 2]

/-- CPF weights for the second check digit (positions 0..9). -/
def cpfSecondWeights : List Nat := [11, 10, 9, 8, 7, 6, 5, 4, 3, 2]

/-- Modelled from the spec: the CPF branch of the external
`cpf-cnpj-validator` library called by `ProducerService.validateDocument`
is not part of this repository; per the spec a CPF is 11 digits, not an
all-repeated-digit sequence, and its last two digits must equal the two
weighted-modulus-11 check digits (weights 10..2 then 11..2, remainder < 2
maps to 0, otherwise 11 minus the remainder). -/
def isValidCPF (s : String) : Bool :=
  let cs := s.data
  let ds := digitsOf cs
  cs.length == 11 && cs.all Char.isDigit && !(allRepeated cs) &&
    ds.getD 9 0 == checkDigit11 (ds.take 9) cpfFirstWeights &&
    ds.getD 10 0 == checkDigit11 (ds.take 10) cpfSecondWeights

/-- CNPJ weights for the first check digit (positions 0..11). -/
def cnpjFirstWeights : List Nat := [5, 4, 3, 2, 9, 8, 7, 6, 5, 4, 3, 2]

/-- CNPJ weights for the second check digit (positions 0..12). -/
def cnpjSecondWeights : List Nat := [6, 5, 4, 3, 2, 9, 8, 7, 6, 5, 4, 3, 2]

/-- Modelled from the spec: the CNPJ branch of the external
`cpf-cnpj-validator` library, analogous to the CPF branch with 14 digits
and the CNPJ weight sequences. -/
def isValidCNPJ (s : String) : Bool :=
  let cs := s.data
  let ds := digitsOf cs
  cs.length == 14 && cs.all Char.isDigit && !(allRepeated cs) &&
    ds.getD 12 0 == checkDigit11 (ds.take 12) cnpjFirstWeights &&
    ds.getD 13 0 == checkDigit11 (ds.take 13) cnpjSecondWeights

/-- The `where` clause of `ProducerService.verifyIfDocumentIsAvailable`:
same document, and not the excluded row itself. -/
def producerDocMatches (document : String) (excludeId : Option String) (p : Producer) : Bool :=
  p.document == document && excludeOk excludeId p.id

/-- `CreateProducerSchema` payload. -/
structure CreateProducerDto where
  document : String
  documentType : DocumentType
  name : String
deriving Repr, DecidableEq

/-- `UpdateProducerSchema` payload (all fields optional). -/
structure UpdateProducerDto where
  document : Option String := none
  documentType : Option DocumentType := none
  name : Option String := none
deriving Repr, DecidableEq

namespace ProducerService

/-- `ProducerService.verifyIfDocumentIsAvailable`: `findFirst` on the
document, excluding `excludeId`; a hit is a conflict. -/
def verifyIfDocumentIsAvailable (db : DB) (document : String) (excludeId : Option String) :
    Except ServiceError Unit :=
  match db.producers.find? (producerDocMatches document excludeId) with
  | some _ => .error (.badRequest "Producer with this document already exists")
  | none => .ok ()

/-- `ProducerService.validateDocument`: CPF or CNPJ checksum validation by
document type; failure is a bad-request error. -/
def validateDocument (document : String) (documentType : DocumentType) :
    Except ServiceError Unit :=
  let isValidDocument :=
    match documentType with
    | .CPF => isValidCPF document
    | .CNPJ => isValidCNPJ document
  if isValidDocument then
    .ok ()
  else
    .error (.badRequest
      (match documentType with
       | .CPF => "Invalid CPF format"
       | .CNPJ => "Invalid CNPJ format"))

/-- `ProducerService.create`: check document availability, then validate
its format, then write the new row. -/
def create (db : DB) (newId : String) (dto : CreateProducerDto) :
    Except ServiceError (DB × Producer) :=
  match verifyIfDocumentIsAvailable db dto.document none with
  | .error e => .error e
  | .ok _ =>
    match validateDocument dto.document dto.documentType with
    | .error e => .error e
    | .ok _ =>
      let p : Producer :=
        { id := newId, document := dto.document, documentType := dto.documentType,
          name := dto.name }
      .ok ({ db with producers := db.producers ++ [p] }, p)

/-- `ProducerService.findOne`: `findFirst` by id, else NotFound. -/
def findOne (db : DB) (id : String) : Except ServiceError Producer :=
  match db.producers.find? (fun p => p.id == id) with
  | some p => .ok p
  | none => .error (.notFound "Producer not found")

/-- The row written by `ProducerService.update` (`data: updateProducerDto`,
Prisma skipping absent fields). -/
def applyUpdate (current : Producer) (dto : UpdateProducerDto) : Producer :=
  { current with
    document := dto.document.getD current.document,
    documentType := dto.documentType.getD current.documentType,
    name := dto.name.getD current.name }

/-- `ProducerService.update`: load the row; only when BOTH a (truthy)
`document` and a `documentType` are supplied (`if (document &&
documentType)`), validate the document format and re-check availability
excluding the row's own id; then write the patch.  The `getD` defaults in
the guarded branch are unreachable (the branch requires both fields). -/
def update (db : DB) (id : String) (dto : UpdateProducerDto) :
    Except ServiceError (DB × Producer) :=
  match findOne db id with
  | .error e => .error e
  | .ok current =>
    match (if jsStrTruthy dto.document && dto.documentType.isSome then
             match validateDocument (dto.document.getD "") (dto.documentType.getD DocumentType.CPF) with
             | .error e => .error e
             | .ok _ => verifyIfDocumentIsAvailable db (dto.document.getD "") (some id)
           else .ok () : Except ServiceError Unit) with
    | .error e => .error e
    | .ok _ =>
      let merged := applyUpdate current dto
      .ok ({ db with
               producers := db.producers.map (fun p => if p.id == id then merged else p) },
           merged)

end ProducerService

/-- The cascade configured in the Prisma schema for a producer delete:
the producer's properties go, with their seasons and those seasons'
crops. -/
def DB.removeProducerCascade (db : DB) (id : String) : DB :=
  let deadPropertyIds := (db.properties.filter (fun q => q.producerId == id)).map Property.id
  let deadSeasonIds :=
    (db.seasons.filter (fun s => deadPropertyIds.contains s.propertyId)).map Season.id
  { db with
    producers := db.producers.filter (fun p => p.id != id),
    properties := db.properties.filter (fun q => q.producerId != id),
    seasons := db.seasons.filter (fun s => !(deadPropertyIds.contains s.propertyId)),
    crops := db.crops.filter (fun c => !(deadSeasonIds.contains c.seasonId)) }

/-- `ProducerService.remove`: load the row, then delete it (the store
cascades per the schema). -/
def ProducerService.remove (db : DB) (id : String) : Except ServiceError (DB × Producer) :=
  match ProducerService.findOne db id with
  | .error e => .error e
  | .ok p => .ok (db.removeProducerCascade id, p)

theorem producerDocMatches_iff (document : String) (excludeId : Option String) (p : Producer) :
    producerDocMatches document excludeId p = true ↔
      p.document = document ∧ excludeOk excludeId p.id = true := by
  unfold producerDocMatches
  simp

theorem verifyIfDocumentIsAvailable_ok_iff (db : DB) (document : String)
    (excludeId : Option String) :
    ProducerService.verifyIfDocumentIsAvailable db document excludeId = .ok () ↔
      ∀ p ∈ db.producers, ¬ (producerDocMatches document excludeId p = true) := by
  unfold ProducerService.verifyIfDocumentIsAvailable
  cases hfind : db.producers.find? (producerDocMatches document excludeId) with
  | none =>
    simp only []
    constructor
    · intro _
      exact fun p hp => by
        have := List.find?_eq_none.mp hfind p hp
        simpa using this
    · intro _
      trivial
  | some p =>
    simp only []
    constructor
    · intro h
      cases h
    · intro h
      exact absurd (List.find?_some hfind)
        (h p (List.mem_of_find?_eq_some hfind))

theorem verifyIfDocumentIsAvailable_cases (db : DB) (document : String)
    (excludeId : Option String) :
    ProducerService.verifyIfDocumentIsAvailable db document excludeId = .ok () ∨
      ProducerService.verifyIfDocumentIsAvailable db document excludeId =
        .error (.badRequest "Producer with this document already exists") := by
  unfold ProducerService.verifyIfDocumentIsAvailable
  cases hfind : db.producers.find? (producerDocMatches document excludeId) <;> simp

/-- C5: creating a producer whose document equals a stored producer's
document fails with a bad-request conflict error; the availability guard
runs before the persistence write (and even before format validation), so
nothing is written and the first producer stays stored and queryable
unchanged. -/
theorem C5_producer_duplicate_document_rejected :
    ∀ (db : DB) (newId : String) (dto : CreateProducerDto),
      (∃ p ∈ db.producers, p.document = dto.document) →
      ProducerService.create db newId dto =
        .error (.badRequest "Producer with this document already exists") := by
  intro db newId dto hdup
  unfold ProducerService.create
  rcases verifyIfDocumentIsAvailable_cases db dto.document none with hv | hv
  · obtain ⟨p, hp, hdoc⟩ := hdup
    have := (verifyIfDocumentIsAvailable_ok_iff db dto.document none).mp hv p hp
    exact absurd ((producerDocMatches_iff _ _ p).mpr ⟨hdoc, excludeOk_none p.id⟩) this
  · rw [hv]

theorem C5_producer_duplicate_document_rejected_witness :
    ProducerService.create exDB "prod-3"
        { document := "11144477735", documentType := .CPF, name := "Dup" } =
      .error (.badRequest "Producer with this document already exists") :=
  C5_producer_duplicate_document_rejected exDB "prod-3"
    { document := "11144477735", documentType := .CPF, name := "Dup" }
    ⟨exProducer, by simp [exDB], rfl⟩

/-- C10: a producer update whose payload does not supply a (truthy)
document together with a documentType performs neither document format
validation nor the uniqueness check, and writes the patched fields as
given — in particular the stored document can become a string that fails
CPF/CNPJ validation. -/
theorem C10_producer_update_skips_document_checks :
    ∀ (db : DB) (id : String) (dto : UpdateProducerDto) (current : Producer),
      ProducerService.findOne db id = .ok current →
      ¬ (jsStrTruthy dto.document = true ∧ dto.documentType.isSome = true) →
      ProducerService.update db id dto =
        .ok ({ db with producers := (db.producers.map
                 (fun p => if p.id == id then ProducerService.applyUpdate current dto else p)) },
             ProducerService.applyUpdate current dto) := by
  intro db id dto current hfind hnotboth
  unfold ProducerService.update
  rw [hfind]
  simp only []
  have hcond : (jsStrTruthy dto.document && dto.documentType.isSome) ≠ true := by
    simpa [Bool.and_eq_true] using hnotboth
  rw [if_neg hcond]

theorem C10_producer_update_skips_document_checks_witness :
    ProducerService.update exDB "prod-1" { document := some "notacpf1234" } =
      .ok ({ exDB with producers := (exDB.producers.map
               (fun p => if p.id == "prod-1" then
                   ProducerService.applyUpdate exProducer { document := some "notacpf1234" }
                 else p)) },
           ProducerService.applyUpdate exProducer { document := some "notacpf1234" }) ∧
      isValidCPF "notacpf1234" = false :=
  ⟨C10_producer_update_skips_document_checks exDB "prod-1"
      { document := some "notacpf1234" } exProducer (by rfl) (by simp),
   by rfl⟩

/-- No two stored producers share a document string. -/
def producersDocUnique (l : List Producer) : Prop :=
  l.Pairwise (fun a b => a.document ≠ b.document)

/-- Well-formedness of the store: producer primary keys are distinct. -/
def producersIdsNodup (l : List Producer) : Prop :=
  (l.map Producer.id).Nodup

theorem producersDocUnique_mem_ne {l : List Producer} (hpair : producersDocUnique l)
    {p q : Producer} (hp : p ∈ l) (hq : q ∈ l) (hne : p ≠ q) :
    p.document ≠ q.document :=
  List.Pairwise.forall (fun _ _ h => h.symm) hpair hp hq hne

theorem producersDocUnique_write (l : List Producer) (id : String) (merged : Producer)
    (hpair : producersDocUnique l)
    (hids : producersIdsNodup l)
    (hfresh : ∀ p ∈ l, p.id ≠ id → p.document ≠ merged.document) :
    producersDocUnique (l.map (fun p => if p.id == id then merged else p)) := by
  unfold producersDocUnique at *
  unfold producersIdsNodup at hids
  induction l with
  | nil => exact List.Pairwise.nil
  | cons a l ih =>
    rw [List.map_cons, List.pairwise_cons]
    rw [List.pairwise_cons] at hpair
    rw [List.map_cons, List.nodup_cons] at hids
    constructor
    · intro b hb
      rcases List.mem_map.mp hb with ⟨orig, horig, rfl⟩
      by_cases ha : a.id == id <;> by_cases ho : orig.id == id
      · rw [beq_iff_eq] at ha ho
        exact absurd (List.mem_map.mpr ⟨orig, horig, by rw [ho, ha]⟩) hids.1
      · rw [if_pos ha, if_neg ho]
        exact fun h =>
          hfresh orig (List.mem_cons_of_mem a horig)
            (fun hid => ho (beq_iff_eq.mpr hid)) h.symm
      · rw [if_neg ha, if_pos ho]
        exact hfresh a (List.mem_cons_self a l) (fun hid => ha (beq_iff_eq.mpr hid))
      · rw [if_neg ha, if_neg ho]
        exact hpair.1 orig horig
    · exact ih hpair.2 hids.2
        (fun p hp hpid => hfresh p (List.mem_cons_of_mem a hp) hpid)

theorem producer_findOne_ok {db : DB} {id : String} {p : Producer}
    (h : ProducerService.findOne db id = .ok p) : p ∈ db.producers ∧ p.id = id := by
  unfold ProducerService.findOne at h
  cases hfind : db.producers.find? (fun q => q.id == id) with
  | none => rw [hfind] at h; cases h
  | some q =>
    rw [hfind] at h
    cases h
    have hq := List.find?_some hfind
    rw [beq_iff_eq] at hq
    exact ⟨List.mem_of_find?_eq_some hfind, hq⟩

/-- C6 (amended): producer create and delete preserve document uniqueness,
and update preserves it whenever the payload does not supply a (truthy)
document without its documentType; an update supplying a document alone
skips the uniqueness guard entirely and can store a duplicate (see the
counterexample), so the unqualified claim fails. -/
theorem C6_producer_document_unique_amended :
    (∀ (db : DB) (newId : String) (dto : CreateProducerDto) (db' : DB) (p : Producer),
      producersDocUnique db.producers →
      ProducerService.create db newId dto = .ok (db', p) →
      producersDocUnique db'.producers) ∧
    (∀ (db : DB) (id : String) (dto : UpdateProducerDto) (db' : DB) (p' : Producer),
      producersDocUnique db.producers →
      producersIdsNodup db.producers →
      (dto.document = none ∨
        (jsStrTruthy dto.document = true ∧ dto.documentType.isSome = true)) →
      ProducerService.update db id dto = .ok (db', p') →
      producersDocUnique db'.producers) ∧
    (∀ (db : DB) (id : String) (db' : DB) (p : Producer),
      producersDocUnique db.producers →
      ProducerService.remove db id = .ok (db', p) →
      producersDocUnique db'.producers) := by
  refine ⟨?_, ?_, ?_⟩
  · intro db newId dto db' p hpair hok
    unfold ProducerService.create at hok
    cases hv : ProducerService.verifyIfDocumentIsAvailable db dto.document none with
    | error e => rw [hv] at hok; cases hok
    | ok u =>
      rw [hv] at hok
      simp only [] at hok
      cases hvd : ProducerService.validateDocument dto.document dto.documentType with
      | error e => rw [hvd] at hok; cases hok
      | ok u2 =>
        rw [hvd] at hok
        simp only [Except.ok.injEq, Prod.mk.injEq] at hok
        obtain ⟨hdb, hp⟩ := hok
        subst hdb
        have hall := (verifyIfDocumentIsAvailable_ok_iff db dto.document none).mp hv
        unfold producersDocUnique
        rw [List.pairwise_append]
        refine ⟨hpair, List.pairwise_singleton _ _, ?_⟩
        intro a ha b hb
        rcases List.mem_singleton.mp hb with rfl
        intro hcontra
        exact hall a ha ((producerDocMatches_iff _ _ a).mpr
          ⟨hcontra, excludeOk_none a.id⟩)
  · intro db id dto db' p' hpair hids hcond hok
    unfold ProducerService.update at hok
    cases hf : ProducerService.findOne db id with
    | error e => rw [hf] at hok; cases hok
    | ok current =>
      rw [hf] at hok
      simp only [] at hok
      obtain ⟨hmem, hcid⟩ := producer_findOne_ok hf
      rcases hcond with hnone | ⟨htruthy, htype⟩
      · rw [hnone] at hok
        have hguard : (jsStrTruthy (none : Option String) && dto.documentType.isSome) = false := by
          simp [jsStrTruthy]
        rw [hguard] at hok
        simp only [Bool.false_eq_true, if_false] at hok
        simp only [Except.ok.injEq, Prod.mk.injEq] at hok
        obtain ⟨hdb, hp⟩ := hok
        subst hdb
        apply producersDocUnique_write _ _ _ hpair hids
        intro p hp hpid
        have hdoc : (ProducerService.applyUpdate current dto).document = current.document := by
          unfold ProducerService.applyUpdate
          rw [hnone]
          rfl
        rw [hdoc]
        exact producersDocUnique_mem_ne hpair hp hmem
          (fun he => hpid (by rw [he, hcid]))
      · rw [htruthy, htype] at hok
        simp only [Bool.and_self, if_true] at hok
        cases hvd : ProducerService.validateDocument (dto.document.getD "")
            (dto.documentType.getD DocumentType.CPF) with
        | error e => rw [hvd] at hok; cases hok
        | ok u =>
          rw [hvd] at hok
          simp only [] at hok
          cases hv : ProducerService.verifyIfDocumentIsAvailable db (dto.document.getD "")
              (some id) with
          | error e => rw [hv] at hok; cases hok
          | ok u2 =>
            rw [hv] at hok
            simp only [Except.ok.injEq, Prod.mk.injEq] at hok
            obtain ⟨hdb, hp⟩ := hok
            subst hdb
            apply producersDocUnique_write _ _ _ hpair hids
            intro p hp hpid
            have hall := (verifyIfDocumentIsAvailable_ok_iff db (dto.document.getD "")
              (some id)).mp hv
            have hdoc : (ProducerService.applyUpdate current dto).document =
                dto.document.getD "" := by
              unfold ProducerService.applyUpdate
              cases hd : dto.document with
              | none => rw [hd] at htruthy; simp [jsStrTruthy] at htruthy
              | some d => rfl
            rw [hdoc]
            intro hcontra
            exact hall p hp ((producerDocMatches_iff _ _ p).mpr
              ⟨hcontra, by rw [excludeOk_some]; exact bne_iff_ne.mpr hpid⟩)
  · intro db id db' p hpair hok
    unfold ProducerService.remove at hok
    cases hf : ProducerService.findOne db id with
    | error e => rw [hf] at hok; cases hok
    | ok q =>
      rw [hf] at hok
      simp only [Except.ok.injEq, Prod.mk.injEq] at hok
      obtain ⟨hdb, hp⟩ := hok
      subst hdb
      exact List.Pairwise.sublist (List.filter_sublist _) hpair

/-- The duplicate producer row produced by the unguarded update path. -/
def pDup : Producer := { exProducer2 with document := "11144477735" }

/-- The post-update store in which two producers share a document. -/
def dbDup : DB := { exDB with producers := [exProducer, pDup] }

theorem C6_producer_document_unique_counterexample :
    ProducerService.update exDB "prod-2" { document := some "11144477735" } =
      .ok (dbDup, pDup) ∧ ¬ producersDocUnique dbDup.producers := by
  constructor
  · rfl
  · intro h
    exact (List.pairwise_cons.mp h).1 pDup (List.mem_singleton.mpr rfl) rfl

theorem C6_producer_document_unique_amended_witness :
    producersDocUnique
      ((exDB.removeProducerCascade "prod-2").producers) :=
  C6_producer_document_unique_amended.2.2 exDB "prod-2" (exDB.removeProducerCascade "prod-2")
    exProducer2
    (by
      unfold producersDocUnique exDB exProducer exProducer2
      simp)
    (by rfl)

theorem digit_char_inj {a b : Char} (ha : a.isDigit = true) (hb : b.isDigit = true)
    (h : a.toNat - 48 = b.toNat - 48) : a = b := by
  have ha' : 48 ≤ a.toNat := by
    simp [Char.isDigit] at ha
    exact ha.1
  have hb' : 48 ≤ b.toNat := by
    simp [Char.isDigit] at hb
    exact hb.1
  have h' : a.toNat = b.toNat := by omega
  exact Char.eq_of_val_eq (UInt32.toNat.inj h')

theorem digitsOf_append_two (pre : List Char) (c d : Char) :
    digitsOf (pre ++ [c, d]) = digitsOf pre ++ [c.toNat - 48, d.toNat - 48] := by
  simp [digitsOf]

/-- C7 shows a single-digit mutation of a valid CPF that is again a valid
CPF: 11111111707 and 01111111707 are both accepted and differ in exactly
one position, refuting the claim's single-digit-mutation half. -/
theorem C7_cpf_single_digit_mutation_counterexample :
    isValidCPF "11111111707" = true ∧
    isValidCPF "01111111707" = true ∧
    ("11111111707" : String).data.length = ("01111111707" : String).data.length ∧
    (List.zip ("11111111707" : String).data ("01111111707" : String).data).countP
      (fun p => p.1 != p.2) = 1 :=
  ⟨rfl, rfl, rfl, rfl⟩

/-- C7 (amended): every 11-digit non-all-repeated string whose last two
digits equal the standard CPF weighted-modulus-11 check digits is
accepted; and mutating a valid CPF anywhere within its final two (check)
digits makes the validator return false.  (A mutation of a single digit
among the first nine can produce another valid CPF — see the
counterexample — so the original "any single digit" statement fails.) -/
theorem C7_cpf_validator_amended :
    (∀ s : String,
      s.data.length = 11 →
      s.data.all Char.isDigit = true →
      allRepeated s.data = false →
      (digitsOf s.data).getD 9 0 = checkDigit11 ((digitsOf s.data).take 9) cpfFirstWeights →
      (digitsOf s.data).getD 10 0 = checkDigit11 ((digitsOf s.data).take 10) cpfSecondWeights →
      isValidCPF s = true) ∧
    (∀ (pre : List Char) (x y x' y' : Char),
      pre.length = 9 →
      isValidCPF (String.mk (pre ++ [x, y])) = true →
      ¬ (x' = x ∧ y' = y) →
      isValidCPF (String.mk (pre ++ [x', y'])) = false) := by
  constructor
  · intro s h1 h2 h3 h4 h5
    simp [isValidCPF, h1, h2, h3]
    exact ⟨by simpa using h4, by simpa using h5⟩
  · intro pre x y x' y' hlen hvalid hne
    by_contra hcon
    rw [Bool.not_eq_false] at hcon
    simp only [isValidCPF, Bool.and_eq_true, beq_iff_eq, Bool.not_eq_true'] at hvalid hcon
    obtain ⟨⟨⟨⟨hlen1, hdig1⟩, hrep1⟩, hdv11⟩, hdv12⟩ := hvalid
    obtain ⟨⟨⟨⟨hlen2, hdig2⟩, hrep2⟩, hdv21⟩, hdv22⟩ := hcon
    have hdlen : (digitsOf pre).length = 9 := by simp [digitsOf, hlen]
    have htake9 : ∀ c d : Char, (digitsOf (pre ++ [c, d])).take 9 = digitsOf pre := by
      intro c d
      rw [digitsOf_append_two]
      exact List.take_left' hdlen
    have hget9 : ∀ c d : Char, (digitsOf (pre ++ [c, d])).getD 9 0 = c.toNat - 48 := by
      intro c d
      rw [digitsOf_append_two]
      rw [List.getD_append_right _ _ _ _ (le_of_eq hdlen)]
      rw [hdlen]
      rfl
    have htake10 : ∀ c d : Char,
        (digitsOf (pre ++ [c, d])).take 10 = digitsOf pre ++ [c.toNat - 48] := by
      intro c d
      rw [digitsOf_append_two]
      rw [show digitsOf pre ++ [c.toNat - 48, d.toNat - 48] =
        (digitsOf pre ++ [c.toNat - 48]) ++ [d.toNat - 48] by simp]
      exact List.take_left' (by simp [hdlen])
    have hget10 : ∀ c d : Char, (digitsOf (pre ++ [c, d])).getD 10 0 = d.toNat - 48 := by
      intro c d
      rw [digitsOf_append_two]
      rw [List.getD_append_right _ _ _ _ (by rw [hdlen]; omega)]
      rw [hdlen]
      rfl
    have hxdig : x.isDigit = true := by
      simpa using List.all_eq_true.mp hdig1 x (by simp)
    have hydig : y.isDigit = true := by
      simpa using List.all_eq_true.mp hdig1 y (by simp)
    have hxdig' : x'.isDigit = true := by
      simpa using List.all_eq_true.mp hdig2 x' (by simp)
    have hydig' : y'.isDigit = true := by
      simpa using List.all_eq_true.mp hdig2 y' (by simp)
    rw [hget9, htake9] at hdv11 hdv21
    have hxx : x' = x := digit_char_inj hxdig' hxdig (hdv21.trans hdv11.symm)
    rw [hget10, htake10] at hdv12 hdv22
    rw [hxx] at hdv22
    have hyy : y' = y := digit_char_inj hydig' hydig (hdv22.trans hdv12.symm)
    exact hne ⟨hxx, hyy⟩

theorem C7_cpf_validator_amended_witness :
    isValidCPF "52998224725" = true ∧ isValidCPF "52998224728" = false :=
  ⟨C7_cpf_validator_amended.1 "52998224725" rfl rfl rfl rfl rfl,
   C7_cpf_validator_amended.2 ("529982247" : String).data '2' '5' '2' '8' rfl rfl
     (by decide)⟩

/-- `PaginationSchema` currentPage transform, `val ? Number(val) : 1`
(the argument is the numeric value of the query parameter when present
and non-empty). -/
def parsedCurrentPage (requested : Option Nat) : Nat :=
  match requested with
  | some n => n
  | none => 1

/-- `PaginationSchema` registersPerPage transform,
`val ? Math.min(Number(val), 100) : 10`. -/
def parsedRegistersPerPage (requested : Option Nat) : Nat :=
  match requested with
  | some n => min n 100
  | none => 10

/-- The skip/take applied by every `findAll`:
`skip = (currentPage - 1) * registersPerPage` and
`take = registersPerPage`. -/
def paginate {α : Type} (rows : List α) (currentPage registersPerPage : Nat) : List α :=
  (rows.drop ((currentPage - 1) * registersPerPage)).take registersPerPage

/-- The `where` built by `CropService.findAll` from
`UpdateCropSchema.parse(paginationDto.filters)`: exact match on truthy
foreign keys, `gte` on a truthy plantedArea (a null stored plantedArea
never satisfies `gte`). -/
def cropWhere (filters : UpdateCropDto) (c : Crop) : Bool :=
  (if jsStrTruthy filters.seasonId then c.seasonId == filters.seasonId.getD "" else true) &&
  (if jsStrTruthy filters.cultureTypeId then
     c.cultureTypeId == filters.cultureTypeId.getD "" else true) &&
  (if jsRatTruthy filters.plantedArea then
     (match c.plantedArea with
      | some a => decide (filters.plantedArea.getD 0 ≤ a)
      | none => false)
   else true)

/-- `CropService.findAll`: filter, then page; returns the page, the total
matching count, and the current page. -/
def CropService.findAll (db : DB) (currentPage registersPerPage : Nat)
    (filters : UpdateCropDto) : List Crop × Nat × Nat :=
  let rows := db.crops.filter (cropWhere filters)
  (paginate rows currentPage registersPerPage, rows.length, currentPage)

/-- C9: list pagination uses `skip = (currentPage - 1) × registersPerPage`
with `take = registersPerPage`; `currentPage` defaults to 1,
`registersPerPage` defaults to 10 and a requested value is capped at 100;
at most `registersPerPage` records come back per call. -/
theorem C9_pagination_contract :
    parsedCurrentPage none = 1 ∧
    parsedRegistersPerPage none = 10 ∧
    (∀ n : Nat, parsedRegistersPerPage (some n) = min n 100 ∧
      parsedRegistersPerPage (some n) ≤ 100) ∧
    (∀ (db : DB) (currentPage registersPerPage : Nat) (filters : UpdateCropDto),
      (CropService.findAll db currentPage registersPerPage filters).1 =
        ((db.crops.filter (cropWhere filters)).drop
          ((currentPage - 1) * registersPerPage)).take registersPerPage ∧
      (CropService.findAll db currentPage registersPerPage filters).1.length ≤
        registersPerPage) := by
  refine ⟨rfl, rfl, fun n => ⟨rfl, Nat.min_le_right n 100⟩,
    fun db currentPage registersPerPage filters => ⟨rfl, ?_⟩⟩
  exact List.length_take_le _ _

/-- Count-descending order on groupBy rows (`orderBy: _count.id desc`). -/
def countGE {α : Type} (a b : α × Nat) : Prop := b.2 ≤ a.2

instance {α : Type} : DecidableRel (@countGE α) :=
  fun a b => inferInstanceAs (Decidable (b.2 ≤ a.2))

instance {α : Type} : IsTotal (α × Nat) countGE :=
  ⟨fun a b => (Nat.le_total b.2 a.2).imp id id⟩

instance {α : Type} : IsTrans (α × Nat) countGE :=
  ⟨fun _ _ _ hab hbc => Nat.le_trans hbc hab⟩

/-- `groupBy(['state'], _count: { id: true })` over the property table:
one row per distinct state with the number of properties in it. -/
def farmsByStateRaw (properties : List Property) : List (String × Nat) :=
  ((properties.map Property.state).dedup).map
    (fun st => (st, (properties.filter (fun p => p.state == st)).length))

/-- `groupBy(['cultureTypeId'], _count: { id: true })` over the crop
table: one row per distinct culture type id with its crop count. -/
def farmsByCultureRaw (crops : List Crop) : List (String × Nat) :=
  ((crops.map Crop.cultureTypeId).dedup).map
    (fun cid => (cid, (crops.filter (fun c => c.cultureTypeId == cid)).length))

/-- The culture-type name joined by the dashboard
(`cultureTypes.find(...)?.name || 'Unknown'`). -/
def cultureNameFor (db : DB) (cultureTypeId : String) : String :=
  match db.cultureTypes.find? (fun ct => ct.id == cultureTypeId) with
  | some ct => ct.name
  | none => "Unknown"

/-- The shape returned by `ProducerService.getDashboard` (charts flattened). -/
structure Dashboard where
  totalFarms : Nat
  totalHectares : Rat
  farmsByState : List (String × Nat)
  farmsByCulture : List (String × Nat)
  landUse : List (String × Rat)
deriving Repr, DecidableEq

/-- `ProducerService.getDashboard` over the full property and crop tables
(no filters): total count, total hectares, count-by-state and
count-by-culture sorted descending by count, and the two land-use sums. -/
def ProducerService.getDashboard (db : DB) : Dashboard :=
  { totalFarms := db.properties.length,
    totalHectares := (db.properties.map Property.totalArea).sum,
    farmsByState := List.insertionSort countGE (farmsByStateRaw db.properties),
    farmsByCulture :=
      (List.insertionSort countGE (farmsByCultureRaw db.crops)).map
        (fun item => (cultureNameFor db item.1, item.2)),
    landUse :=
      [("Área Agricultável", (db.properties.map Property.arableArea).sum),
       ("Área de Vegetação", (db.properties.map Property.vegetationArea).sum)] }

/-- C8: the unfiltered dashboard aggregate returns the property count, the
sum of `totalArea`, property counts per state sorted descending by count,
crop counts per culture type joined to the culture type's (display) name
sorted descending by count, and the two land-use category/value pairs
summing `arableArea` and `vegetationArea`. -/
theorem C8_dashboard_aggregate :
    ∀ db : DB,
      (ProducerService.getDashboard db).totalFarms = db.properties.length ∧
      (ProducerService.getDashboard db).totalHectares =
        (db.properties.map Property.totalArea).sum ∧
      ((ProducerService.getDashboard db).farmsByState.Sorted countGE ∧
        ∀ st cnt, (st, cnt) ∈ (ProducerService.getDashboard db).farmsByState ↔
          ((∃ p ∈ db.properties, p.state = st) ∧
            cnt = (db.properties.filter (fun p => p.state == st)).length)) ∧
      ((ProducerService.getDashboard db).farmsByCulture.Sorted countGE ∧
        ∀ x, x ∈ (ProducerService.getDashboard db).farmsByCulture ↔
          (∃ cid, (∃ c ∈ db.crops, c.cultureTypeId = cid) ∧
            x = (cultureNameFor db cid,
              (db.crops.filter (fun c => c.cultureTypeId == cid)).length))) ∧
      (ProducerService.getDashboard db).landUse =
        [("Área Agricultável", (db.properties.map Property.arableArea).sum),
         ("Área de Vegetação", (db.properties.map Property.vegetationArea).sum)] := by
  intro db
  refine ⟨rfl, rfl, ⟨?_, ?_⟩, ⟨?_, ?_⟩, rfl⟩
  · exact List.sorted_insertionSort countGE _
  · intro st cnt
    show (st, cnt) ∈ List.insertionSort countGE (farmsByStateRaw db.properties) ↔ _
    rw [(List.perm_insertionSort countGE _).mem_iff]
    unfold farmsByStateRaw
    simp only [List.mem_map, List.mem_dedup, Prod.mk.injEq]
    constructor
    · rintro ⟨s0, ⟨p, hp, hps⟩, h1, h2⟩
      subst h1
      exact ⟨⟨p, hp, hps⟩, h2.symm⟩
    · rintro ⟨⟨p, hp, hps⟩, hcnt⟩
      exact ⟨st, ⟨p, hp, hps⟩, rfl, hcnt.symm⟩
  · show ((List.insertionSort countGE (farmsByCultureRaw db.crops)).map _).Sorted countGE
    have hsorted := List.sorted_insertionSort countGE (farmsByCultureRaw db.crops)
    unfold List.Sorted at hsorted ⊢
    rw [List.pairwise_map]
    exact hsorted.imp (fun h => h)
  · intro x
    show x ∈ (List.insertionSort countGE (farmsByCultureRaw db.crops)).map _ ↔ _
    rw [List.mem_map]
    constructor
    · rintro ⟨y, hy, rfl⟩
      rw [(List.perm_insertionSort countGE _).mem_iff] at hy
      unfold farmsByCultureRaw at hy
      simp only [List.mem_map, List.mem_dedup] at hy
      obtain ⟨cid, ⟨c, hc, hcid⟩, rfl⟩ := hy
      exact ⟨cid, ⟨c, hc, hcid⟩, rfl⟩
    · rintro ⟨cid, ⟨c, hc, hcid⟩, rfl⟩
      refine ⟨(cid, (db.crops.filter (fun c => c.cultureTypeId == cid)).length), ?_, rfl⟩
      rw [(List.perm_insertionSort countGE _).mem_iff]
      unfold farmsByCultureRaw
      simp only [List.mem_map, List.mem_dedup]
      exact ⟨cid, ⟨c, hc, hcid⟩, rfl⟩
